import Mathlib

/-!
Verification development for the `aiwork` Cloudflare Worker: a Hono HTTP
proxy that authenticates requests with HTTP Basic auth and forwards prompts
to LLM / text-to-speech providers.

The definitions below are a shallow embedding of the worker source
(`src/index.ts`; route variants with the `/sound/open` endpoint and the
dynamic vocabulary template).  Strings are modelled by Lean `String`
(a sequence of Unicode scalar values, matching how `Array.from` iterates a
JavaScript string by code points), machine integers do not occur, and the
provider backends are modelled as oracles supplied as input, with every
dispatched provider call recorded in an effect log.
-/

namespace Aiwork

/-- The apostrophe character, used inside some template strings. -/
def apos : String := String.singleton (Char.ofNat 39)

/-- The `MAX_TOKENS` constant from the worker source. -/
def MAX_TOKENS : Nat := 512

/-- The `ASK_PROMPT` template literal (system prompt of the `/ask` routes).
`${MAX_TOKENS}` is interpolated; the braces of the inline schema example are
written with `\x7b`/`\x7d` escapes. -/
def ASK_PROMPT : String :=
  "
# Japanese Language Expert
Generate 3-5 Japanese-English sentences pairs using the specific word/topic provided by the user.
Each sentence pair must follow the schema: \x7bjp: \"Japanese sentence\", en: \"English sentence\", jp_reading: \"Japanese sentence reading in hiragana\"\x7d
The user" ++ apos ++ "s input will be in the following format: [word]::[reading]::[meaning;meaning;...]
Respect maximum token limit: " ++ toString MAX_TOKENS ++ " tokens
**Requirements for Each Sentence Pair:**
1. Include the exact user-provided word/topic at least once
2. Have furigana annotations for ALL kanji characters in the format: kanji[furigana]
3. Be grammatically correct and natural-sounding
4. Be culturally appropriate
5. Be relevant to the user-provided word/topic
6. If there are multiple possible translations, provide the most common one
7. If there are multiple possible readings for a kanji, provide the most common one
This revised prompt provides a clear, structured framework to generate high-quality, accurate Japanese-English sentence pairs.
"

/-- The `EXPLAIN_GRAMMAR` template literal (grammar-explanation system prompt). -/
def EXPLAIN_GRAMMAR : String :=
  "
**[Pattern/Phrase]** means **\"[translation]\"** and functions to [grammatical role/purpose].

### Structure Analysis
- **[Component 1]**: [function explanation]
- **[Component 2]**: [function explanation]
- **Pattern formula:** [X + Y + Z pattern notation]

### Usage Examples
- **Basic usage:**
  - **[Japanese sentence]**
    *([ふりがな], [romaji])*
    → \"[English translation]\"

- **Variation:**
  - **[Japanese sentence]**
    *([ふりがな], [romaji])*
    → \"[English translation]\"

### Related Constructions
**[Related Pattern 1]**
- Meaning: [meaning]
- When to use: [context]
- Difference: [how it differs from main pattern]

**[Related Pattern 2]**
- Meaning: [meaning]
- When to use: [context]
- Difference: [how it differs from main pattern]

### Usage Rules
- **Correct structure:** [specific syntactic requirements]
- **Common mistakes:** [errors to avoid]
- **Register awareness:** [formality considerations]
"

/-- The `SPEECH_INSTRUCTIONS` constant passed to the speech-synthesis call. -/
def SPEECH_INSTRUCTIONS : String :=
  "
Voice: Clear, authoritative, and composed, projecting confidence and professionalism.
Tone: Neutral and informative, maintaining a balance between formality and approachability.
Punctuation: Structured with commas and pauses for clarity, ensuring information is digestible and well-paced.
Delivery: Steady and measured, with slight emphasis on key figures and deadlines to highlight critical points.
  "

/-- The source's kanji test (a regex character-class test over the range
written u4e00 through u9faf): whether the input contains a character in the CJK range U+4E00–U+9FAF.  The JavaScript
regex (no `u` flag) tests UTF-16 code units; on the basic multilingual
plane a code unit is the code point, and supplementary-plane characters
are surrogate pairs whose units lie outside the range, so the regex agrees
with this scalar-value test on every well-formed string. -/
def containsKanji (s : String) : Bool :=
  s.toList.any fun c => 0x4e00 ≤ c.toNat && c.toNat ≤ 0x9faf

/-- Initial `basePrompt` template literal of `generateWordExplanationPrompt`. -/
def wordPromptHead : String :=
  "
**[Word (ふりがな, romaji)]** - *[part of speech]*
Means **\"[primary translation]\"** or **\"[secondary translation],\"** specifically referring to **[precise meaning]**."

/-- The kanji-analysis section, appended when the word contains kanji. -/
def kanjiAnalysisSection : String :=
  "

### Kanji Analysis
For each kanji in the word:
- **[Kanji 1 (ふりがな, romaji)]** → Strokes: [number], JLPT: [level]
  - **Readings**: On: [on" ++ apos ++ "yomi], Kun: [kun" ++ apos ++ "yomi]
  - **Core meaning:** \"[core meaning]\"

- **[Kanji 2 (ふりがな, romaji)]** → Strokes: [number], JLPT: [level]
  - **Readings**: On: [on" ++ apos ++ "yomi], Kun: [kun" ++ apos ++ "yomi]
  - **Core meaning:** \"[core meaning]\"

**Combined meaning:** \"[compound meaning]\" with nuance of **[specific connotation]**"

/-- The usage-examples section, always appended. -/
def usageExamplesSection : String :=
  "

### Usage Examples
- **Casual context:**
  - **[Japanese sentence]**
    *([ふりがな], [romaji])*
    → \"[English translation]\"

- **Formal context:**
  - **[Japanese sentence]**
    *([ふりがな], [romaji])*
    → \"[English translation]\""

/-- The common-compounds section, appended when the word contains kanji. -/
def commonCompoundsSection : String :=
  "

### Common Compounds
- **[Compound 1]** ([reading]) - \"[meaning]\"
- **[Compound 2]** ([reading]) - \"[meaning]\"
- **[Compound 3]** ([reading]) - \"[meaning]\""

/-- The similar-words section, always appended. -/
def similarWordsSection : String :=
  "

### Similar Words Comparison
**[Similar Word 1]**
- Reading: [reading]
- Meaning: [core meaning]
- Usage: [when/how used]
- Nuance: [specific connotation]

**[Similar Word 2]**
- Reading: [reading]
- Meaning: [core meaning]
- Usage: [when/how used]
- Nuance: [specific connotation]

### Usage Summary
- **Standard usage:** [typical context]
- **Special considerations:** [politeness level, gender associations]
- **Common collocations:** [words/phrases often used with it]"

/-- The mnemonic line, appended when the word contains kanji. -/
def mnemonicSection : String :=
  "
- **Mnemonic:** [memorable image/story to help remember the kanji]"

/-- Function `generateWordExplanationPrompt` from the worker source: starts from a
fixed base template and conditionally appends the kanji-analysis,
common-compounds and mnemonic sections exactly when the input contains a
character in U+4E00–U+9FAF.  The user's input is only inspected by the
`containsKanji` test, never inserted into the result. -/
def generateWordExplanationPrompt (prompt : String) : String :=
  let ck := containsKanji prompt
  let b0 := wordPromptHead
  let b1 := if ck then b0 ++ kanjiAnalysisSection else b0
  let b2 := b1 ++ usageExamplesSection
  let b3 := if ck then b2 ++ commonCompoundsSection else b2
  let b4 := b3 ++ similarWordsSection
  let b5 := if ck then b4 ++ mnemonicSection else b4
  b5

/-- The single output of `generateWordExplanationPrompt` on kanji-bearing input. -/
def wordPromptWithKanji : String :=
  wordPromptHead ++ kanjiAnalysisSection ++ usageExamplesSection ++
    commonCompoundsSection ++ similarWordsSection ++ mnemonicSection

/-- The single output of `generateWordExplanationPrompt` on kanji-free input. -/
def wordPromptPlain : String :=
  wordPromptHead ++ usageExamplesSection ++ similarWordsSection

/-- Boolean infix test on character lists (helper for stating that a
rendered template contains a section marker). -/
def listHasInfix (pat : List Char) : List Char → Bool
  | [] => pat.isEmpty
  | c :: cs => pat.isPrefixOf (c :: cs) || listHasInfix pat cs

/-- Predicate `hasSubstr s pat` holds when `pat` occurs contiguously in `s`. -/
def hasSubstr (s pat : String) : Bool :=
  listHasInfix pat.toList s.toList

/-! ## Data model of the worker's request pipeline -/

/-- The worker's environment bindings (`c.env`). -/
structure Env where
  AUTH_USERNAME : String
  AUTH_PASSWORD : String
  OPENAI_KEY : String
deriving DecidableEq

/-- The Basic-Auth state of an inbound request, as decoded by the
`hono/basic-auth` middleware's header parser: the `Authorization` header is
either absent, present but not a well-formed `Basic <base64>` credential
(wrong scheme or undecodable payload), or decodes to a username/password
pair.  Base64 decoding itself is abstracted: `creds u p` stands for any
header that decodes to the pair `(u, p)`. -/
inductive AuthHeader where
  | missing
  | malformed
  | creds (username password : String)
deriving DecidableEq

/-- The query parameters the routes read (`c.req.query(...)`); `none`
models an absent parameter. -/
structure Query where
  prompt : Option String := none
  type : Option String := none
  voice : Option String := none
  model : Option String := none
deriving DecidableEq

/-- An inbound GET request.  All routes of the app are registered with
`app.get`, and the claims quantify over those; the CORS middleware is a
pass-through for GET requests (it only adds response headers), so it is not
modelled. -/
structure Request where
  path : String
  auth : AuthHeader
  query : Query
deriving DecidableEq

/-- One sentence object of the structured `dictSchema` response:
`{ jp, jp_reading, en }`, all strings. -/
structure Sentence where
  jp : String
  jp_reading : String
  en : String
deriving DecidableEq

/-- The parsed `dict` payload: `{ sentences: Sentence[] }`. -/
structure Dict where
  sentences : List Sentence
deriving DecidableEq

/-- One element of `resp.choices` from the structured-parse call; `parsed`
models `message.parsed`, which is `null` when schema parsing failed. -/
structure ParsedChoice where
  parsed : Option Dict
deriving DecidableEq

/-- The response of `openai.beta.chat.completions.parse`. -/
structure OpenAiParseResp where
  choices : List ParsedChoice
deriving DecidableEq

/-- The provider-native JSON value returned by `c.env.AI.run` on `/ask/cf`.
The declared `response_format` JSON schema requires a `sentences` array of
`{jp, jp_reading, en}` objects; the handler never inspects it and returns
it as-is. -/
structure CfResult where
  sentences : List Sentence
deriving DecidableEq

instance {ε α : Type} [DecidableEq ε] [DecidableEq α] : DecidableEq (Except ε α) := fun x y =>
  match x, y with
  | .error a, .error b =>
      if h : a = b then isTrue (congrArg Except.error h)
      else isFalse fun hh => h (Except.error.inj hh)
  | .ok a, .ok b =>
      if h : a = b then isTrue (congrArg Except.ok h)
      else isFalse fun hh => h (Except.ok.inj hh)
  | .error _, .ok _ => isFalse fun hh => Except.noConfusion hh
  | .ok _, .error _ => isFalse fun hh => Except.noConfusion hh

/-- Oracle for the external providers: what each backend would return if
called.  `Except.error` models the provider call throwing. -/
structure Upstream where
  askOpen : Except Unit OpenAiParseResp
  explainDeltas : Except Unit (List String)
  speech : Except Unit (List Nat)
  askCf : Except Unit CfResult
deriving DecidableEq

/-- The argument record of the `openai.audio.speech.create` call. -/
structure SpeechCall where
  model : String
  voice : String
  input : String
  instructions : String
deriving DecidableEq

/-- A dispatched provider call, recorded in the effect log of a request. -/
inductive BackendCall where
  | openaiParse (systemPrompt userPrompt model : String) (maxTokens : Nat)
  | openaiStream (systemPrompt userPrompt model : String) (maxTokens : Nat)
  | openaiSpeech (call : SpeechCall)
  | aiRun (model systemPrompt userPrompt : String) (maxTokens temperature : Nat)
deriving DecidableEq

/-! ## The streaming shaper of `/explain/open`

The handler body is

```
for await (const message of streamResp) \x7b
  const text = message.choices[0]?.delta.content ?? ``;
  await Promise.all(
    Array.from(text).map(async (s) => \x7b
      await stream.write(s);
      await stream.sleep(20);
    \x7d)
  );
\x7d
```

JavaScript event-loop semantics of one delta: `Array.from(text)` splits the
delta into Unicode code points; `map` invokes its async callback on each
character in array order, and each callback runs synchronously up to its
first `await`, so `stream.write` — which enqueues its chunk on the response
writer at call time — fires once per character, in order, all at the
current instant.  The remaining `sleep(20)` timers then run concurrently
and `Promise.all` resolves when the last of them fires, 20 ms later (at
once when the delta is empty).  The deltas themselves are consumed
strictly sequentially by `for await`. -/

/-- One chunk written to the client: the character and the time in
milliseconds (relative to the start of the stream body) at which the write
is enqueued. -/
structure WriteEvent where
  char : Char
  time : Nat
deriving DecidableEq

/-- Processing of a single upstream delta at time `t`: every character is
written at `t`, and the concurrent 20 ms sleeps advance the clock by 20
(by 0 for the empty delta, whose `Promise.all([])` resolves at once). -/
def processDelta (t : Nat) (text : String) : Nat × List WriteEvent :=
  let cs := text.toList
  (if cs.isEmpty then t else t + 20, cs.map fun c => ⟨c, t⟩)

/-- The fold step of the `for await` loop over upstream deltas. -/
def streamStep (acc : Nat × List WriteEvent) (d : String) : Nat × List WriteEvent :=
  let step := processDelta acc.1 d
  (step.1, acc.2 ++ step.2)

/-- The complete run of the streaming callback over a finite upstream delta
sequence: final clock value and the ordered log of write events. -/
def explainStreamRun (deltas : List String) : Nat × List WriteEvent :=
  deltas.foldl streamStep (0, [])

/-- The characters emitted to the client, in emission order. -/
def emittedChars (deltas : List String) : List Char :=
  (explainStreamRun deltas).2.map WriteEvent.char

/-! ## Responses and handlers -/

/-- The body of a modelled HTTP response. -/
inductive Body where
  | text (s : String)
  | sentences (xs : List Sentence)
  | jsonRaw (v : CfResult)
  | audio (bytes : List Nat)
  | streamChars (events : List WriteEvent)
deriving DecidableEq

/-- A modelled HTTP response.  Only the fields some claim mentions are
kept: status, `Content-Type`, `WWW-Authenticate`, and the body; the
remaining headers the handlers set (`Cache-Control`, `Transfer-Encoding`,
`Connection`, `Content-Length`, CORS) are not modelled. -/
structure Response where
  status : Nat
  contentType : Option String := none
  wwwAuthenticate : Option String := none
  body : Body
deriving DecidableEq

/-- Function `verifyUser` from the worker source: exact string equality of both
fields against the configured credentials. -/
def verifyUser (env : Env) (username password : String) : Bool :=
  username == env.AUTH_USERNAME && password == env.AUTH_PASSWORD

/-- Whether the middleware lets the request through to routing. -/
def authOk (env : Env) (h : AuthHeader) : Bool :=
  match h with
  | .creds u p => verifyUser env u p
  | _ => false

/-- The challenge response of the `hono/basic-auth` middleware.  The app
passes no `realm` option, so the middleware's default realm `Secure Area`
is used in the `WWW-Authenticate` header, with body `Unauthorized`. -/
def unauthorizedResponse : Response :=
  { status := 401
    wwwAuthenticate := some "Basic realm=\"Secure Area\""
    body := .text "Unauthorized" }

/-- A 400 `Missing prompt` response (`HTTPException(400)`). -/
def missingPromptResponse : Response :=
  { status := 400, body := .text "Missing prompt" }

/-- The response hono's default error handler produces when a handler
throws a non-`HTTPException` error (a failed provider call). -/
def internalErrorResponse : Response :=
  { status := 500, body := .text "Internal Server Error" }

/-- The JavaScript truthiness guard `if (!prompt)` on `c.req.query('prompt')`:
falsy when the parameter is absent or the empty string. -/
def promptPresent : Option String → Bool
  | none => false
  | some p => !(p == "")

/-- The success test of `/ask/open`:
`resp.choices.length && resp.choices[0].message.parsed?.sentences.length`,
returning the sentences to serialize when all three are non-empty. -/
def askOpenSuccess (r : OpenAiParseResp) : Option (List Sentence) :=
  match r.choices with
  | [] => none
  | ch :: _ =>
    match ch.parsed with
    | none => none
    | some d => if d.sentences.isEmpty then none else some d.sentences

/-- The `/ask/open` handler. -/
def askOpenHandler (up : Upstream) (q : Query) : Response × List BackendCall :=
  match q.prompt with
  | none => (missingPromptResponse, [])
  | some prompt =>
    if prompt == "" then (missingPromptResponse, [])
    else
      let call := BackendCall.openaiParse ASK_PROMPT prompt "gpt-4o-mini-2024-07-18" MAX_TOKENS
      match up.askOpen with
      | .error _ => (internalErrorResponse, [call])
      | .ok resp =>
        match askOpenSuccess resp with
        | some xs =>
          ({ status := 200, contentType := some "application/json", body := .sentences xs }, [call])
        | none =>
          ({ status := 500, body := .text "Failed to generate sentences" }, [call])

/-- The explanation-type parameter with its default: absent or empty defaults to `vocabulary`. -/
def explainType (q : Query) : String :=
  match q.type with
  | none => "vocabulary"
  | some t => if t == "" then "vocabulary" else t

/-- The `/explain/open` handler: renders the vocabulary template (or the
fixed grammar template), opens the token stream, and relays it through the
pacing shaper; the response body records the ordered write-event log. -/
def explainOpenHandler (up : Upstream) (q : Query) : Response × List BackendCall :=
  match q.prompt with
  | none => (missingPromptResponse, [])
  | some prompt =>
    if prompt == "" then (missingPromptResponse, [])
    else
      let promptTemplate :=
        if explainType q == "vocabulary" then generateWordExplanationPrompt prompt
        else EXPLAIN_GRAMMAR
      let call := BackendCall.openaiStream promptTemplate prompt "gpt-4o-mini-2024-07-18" MAX_TOKENS
      match up.explainDeltas with
      | .error _ => (internalErrorResponse, [call])
      | .ok deltas =>
        ({ status := 200, contentType := some "text/plain; charset=utf-8"
           body := .streamChars (explainStreamRun deltas).2 }, [call])

/-- The voice parameter with its default: absent or empty defaults to `nova`. -/
def soundVoice (q : Query) : String :=
  match q.voice with
  | none => "nova"
  | some v => if v == "" then "nova" else v

/-- The `/sound/open` handler: the speech call uses the request's `voice`
(default `nova`) but a fixed model string `gpt-4o-mini-tts`; the `model`
query parameter is never read by this route.  The handler's try/catch turns
a failed provider call into `HTTPException(500, 'Failed to generate speech')`. -/
def soundOpenHandler (up : Upstream) (q : Query) : Response × List BackendCall :=
  let voice := soundVoice q
  match q.prompt with
  | none => (missingPromptResponse, [])
  | some prompt =>
    if prompt == "" then (missingPromptResponse, [])
    else
      let call := BackendCall.openaiSpeech
        { model := "gpt-4o-mini-tts", voice := voice, input := prompt
          instructions := SPEECH_INSTRUCTIONS }
      match up.speech with
      | .error _ => ({ status := 500, body := .text "Failed to generate speech" }, [call])
      | .ok bytes =>
        ({ status := 200, contentType := some "audio/mpeg", body := .audio bytes }, [call])

/-- The `/ask/cf` handler: dispatches to the AI binding and returns the
provider-native JSON value unconditionally with `c.json(resp)` — there is
no emptiness or shape check on this route. -/
def askCfHandler (up : Upstream) (q : Query) : Response × List BackendCall :=
  match q.prompt with
  | none => (missingPromptResponse, [])
  | some prompt =>
    if prompt == "" then (missingPromptResponse, [])
    else
      let call := BackendCall.aiRun "@cf/meta/llama-3.1-8b-instruct" ASK_PROMPT prompt MAX_TOKENS 0
      match up.askCf with
      | .error _ => (internalErrorResponse, [call])
      | .ok resp =>
        ({ status := 200, contentType := some "application/json", body := .jsonRaw resp }, [call])

/-- The whole app pipeline for a GET request: the `basicAuth` middleware is
registered with `app.use` before every route, so it runs first and a failed
check short-circuits with the 401 challenge before any routing; otherwise
the request is dispatched by path, and an unknown path gets hono's default
404. -/
def handleRequest (env : Env) (up : Upstream) (req : Request) : Response × List BackendCall :=
  if authOk env req.auth then
    if req.path == "/ask/open" then askOpenHandler up req.query
    else if req.path == "/explain/open" then explainOpenHandler up req.query
    else if req.path == "/sound/open" then soundOpenHandler up req.query
    else if req.path == "/ask/cf" then askCfHandler up req.query
    else ({ status := 404, body := .text "404 Not Found" }, [])
  else
    (unauthorizedResponse, [])

/-! ## Demo values used by witnesses and counterexamples -/

/-- A concrete environment. -/
def demoEnv : Env := { AUTH_USERNAME := "u", AUTH_PASSWORD := "p", OPENAI_KEY := "k" }

/-- A credential header matching `demoEnv`. -/
def demoAuth : AuthHeader := .creds "u" "p"

/-- A concrete sentence object. -/
def demoSentence : Sentence := { jp := "例", jp_reading := "れい", en := "example" }

/-- An oracle on which every provider call succeeds. -/
def demoUp : Upstream :=
  { askOpen := .ok { choices := [{ parsed := some { sentences := [demoSentence] } }] }
    explainDeltas := .ok ["ab", "c"]
    speech := .ok [7, 8, 9]
    askCf := .ok { sentences := [demoSentence] } }

/-- An oracle on which every provider call throws. -/
def failUp : Upstream :=
  { askOpen := .error (), explainDeltas := .error (), speech := .error (), askCf := .error () }

/-- An authenticated `/ask/open` request with a prompt. -/
def askOpenReq : Request :=
  { path := "/ask/open", auth := demoAuth, query := { prompt := some "言葉" } }

/-! ## Theorems -/

set_option maxRecDepth 100000

theorem streamRun_chars_aux (deltas : List String) : ∀ (t : Nat) (evs : List WriteEvent),
    ((deltas.foldl streamStep (t, evs)).2).map WriteEvent.char
      = evs.map WriteEvent.char ++ (deltas.map String.toList).flatten := by
  induction deltas with
  | nil => intro t evs; simp
  | cons d ds ih =>
    intro t evs
    rw [List.foldl_cons]
    simp [streamStep, processDelta, ih, Function.comp_def]

/-- C1: for every finite sequence of upstream text deltas received by the
`/explain/open` streaming handler, the concatenation of all chunks emitted
to the client equals the concatenation of the deltas' text — no character
dropped, duplicated, or reordered. -/
theorem explain_stream_preserves_text (deltas : List String) :
    emittedChars deltas = (deltas.map String.toList).flatten := by
  have h := streamRun_chars_aux deltas 0 []
  simpa [emittedChars, explainStreamRun] using h

/-- C2 (code bug): on the delta `"ab"` the handler does not serialize the
two characters 20 ms apart.  Both `stream.write` calls fire at t = 0 in the
same synchronous burst — `Promise.all` over the per-character async
callbacks starts every callback at once and runs the 20 ms sleeps
concurrently — so the pause between consecutive characters is 0 ms and the
whole delta completes at t = 20, where the claimed serialized emission
would have written `'b'` at t = 20 with the delta completing at t = 40. -/
theorem explain_stream_burst_ab :
    explainStreamRun ["ab"] = (20, [⟨'a', 0⟩, ⟨'b', 0⟩]) ∧
    ((explainStreamRun ["ab"]).2.map WriteEvent.time) = [0, 0] := by
  constructor <;> rfl

/-- The two fixed outputs of the vocabulary template builder. -/
theorem wordPrompt_eq_ite (p : String) :
    generateWordExplanationPrompt p =
      if containsKanji p then wordPromptWithKanji else wordPromptPlain := by
  cases h : containsKanji p <;>
    simp [generateWordExplanationPrompt, h, wordPromptWithKanji, wordPromptPlain]

/-- C8: the rendered vocabulary template includes the kanji-analysis,
common-compounds, and mnemonic sections exactly when the input contains a
CJK ideographic character in U+4E00–U+9FAF, and `"猫"` does while `"cat"`
does not. -/
theorem word_prompt_kanji_sections (p : String) :
    (containsKanji p = true →
       hasSubstr (generateWordExplanationPrompt p) "### Kanji Analysis" = true ∧
       hasSubstr (generateWordExplanationPrompt p) "### Common Compounds" = true ∧
       hasSubstr (generateWordExplanationPrompt p) "**Mnemonic:**" = true) ∧
    (containsKanji p = false →
       hasSubstr (generateWordExplanationPrompt p) "### Kanji Analysis" = false ∧
       hasSubstr (generateWordExplanationPrompt p) "### Common Compounds" = false ∧
       hasSubstr (generateWordExplanationPrompt p) "**Mnemonic:**" = false) ∧
    containsKanji "猫" = true ∧ containsKanji "cat" = false := by
  refine ⟨fun h => ?_, fun h => ?_, by decide, by decide⟩
  · rw [wordPrompt_eq_ite p, h]
    exact ⟨by decide, by decide, by decide⟩
  · rw [wordPrompt_eq_ite p, h]
    exact ⟨by decide, by decide, by decide⟩

/-- Witness for C8 at the concrete inputs named by the claim. -/
theorem word_prompt_kanji_sections_witness :
    hasSubstr (generateWordExplanationPrompt "猫") "### Kanji Analysis" = true ∧
    hasSubstr (generateWordExplanationPrompt "cat") "### Kanji Analysis" = false :=
  ⟨((word_prompt_kanji_sections "猫").1 (by decide)).1,
   ((word_prompt_kanji_sections "cat").2.1 (by decide)).1⟩

/-- C10: the vocabulary template builder's output depends on its input only
through the `containsKanji` bit, so it has exactly the two possible outputs
`wordPromptWithKanji` and `wordPromptPlain` — both constants in which no
input text is embedded — and characters outside U+4E00–U+9FAF, such as CJK
Extension A `"㐀"` (U+3400) or the supplementary-plane ideograph `"𠀀"`
(U+20000), never trigger the kanji sections. -/
theorem word_prompt_two_outputs (p q : String)
    (h : containsKanji p = containsKanji q) :
    generateWordExplanationPrompt p = generateWordExplanationPrompt q ∧
    (generateWordExplanationPrompt p = wordPromptWithKanji ∨
     generateWordExplanationPrompt p = wordPromptPlain) ∧
    containsKanji "㐀" = false ∧ containsKanji "𠀀" = false ∧
    generateWordExplanationPrompt "㐀" = wordPromptPlain ∧
    generateWordExplanationPrompt "𠀀" = wordPromptPlain := by
  refine ⟨?_, ?_, by decide, by decide, ?_, ?_⟩
  · rw [wordPrompt_eq_ite p, wordPrompt_eq_ite q, h]
  · rw [wordPrompt_eq_ite p]
    cases containsKanji p <;> simp
  · rw [wordPrompt_eq_ite "㐀", (by decide : containsKanji "㐀" = false)]
    rfl
  · rw [wordPrompt_eq_ite "𠀀", (by decide : containsKanji "𠀀" = false)]
    rfl

/-- Witness for C10 at two distinct kanji-bearing inputs. -/
theorem word_prompt_two_outputs_witness :
    generateWordExplanationPrompt "猫" = generateWordExplanationPrompt "犬" :=
  (word_prompt_two_outputs "猫" "犬" (by decide)).1

/-- An unauthenticated request (no `Authorization` header). -/
def missingAuthReq : Request :=
  { path := "/ask/open", auth := .missing, query := { prompt := some "x" } }

/-- A request with the right username but the wrong password. -/
def wrongPasswordReq : Request :=
  { path := "/ask/cf", auth := .creds "u" "wrong", query := { prompt := some "x" } }

/-- C3 counterexample: on a request with a missing Basic-Auth header the
response is 401 and does carry a `WWW-Authenticate` challenge, but its
value is hono's default `Basic realm="Secure Area"` — the app passes no
`realm` option to the middleware — not `Basic realm="AI Worker Access"` as
the claim states. -/
theorem basic_auth_realm_cex :
    (handleRequest demoEnv demoUp missingAuthReq).1.status = 401 ∧
    (handleRequest demoEnv demoUp missingAuthReq).1.wwwAuthenticate
      = some "Basic realm=\"Secure Area\"" ∧
    (handleRequest demoEnv demoUp missingAuthReq).1.wwwAuthenticate
      ≠ some "Basic realm=\"AI Worker Access\"" := by
  refine ⟨rfl, rfl, by decide⟩

/-- C3 (amended): for every request whose Basic-Auth header is missing,
malformed, or carries a pair not exactly string-equal to the configured
credentials, the response is exactly 401 with the challenge header
`WWW-Authenticate: Basic realm="Secure Area"` (hono's default realm), and
no provider call is dispatched. -/
theorem basic_auth_challenge (env : Env) (up : Upstream) (req : Request)
    (h : authOk env req.auth = false) :
    (handleRequest env up req).1.status = 401 ∧
    (handleRequest env up req).1.wwwAuthenticate = some "Basic realm=\"Secure Area\"" ∧
    (handleRequest env up req).2 = [] := by
  simp [handleRequest, h, unauthorizedResponse]

/-- Witness for C3's amended theorem at a mismatched-credential request. -/
theorem basic_auth_challenge_witness :
    (handleRequest demoEnv demoUp wrongPasswordReq).1.status = 401 ∧
    (handleRequest demoEnv demoUp wrongPasswordReq).1.wwwAuthenticate
      = some "Basic realm=\"Secure Area\"" ∧
    (handleRequest demoEnv demoUp wrongPasswordReq).2 = [] :=
  basic_auth_challenge demoEnv demoUp wrongPasswordReq (by decide)

/-- C4: no code path dispatches a provider call unless the single
`basicAuth` middleware check — registered with `app.use` ahead of every
route — has succeeded: a non-empty backend-call log implies the request's
credentials verified. -/
theorem auth_gates_backends (env : Env) (up : Upstream) (req : Request)
    (h : (handleRequest env up req).2 ≠ []) :
    authOk env req.auth = true := by
  cases hval : authOk env req.auth with
  | true => rfl
  | false =>
    exact absurd (by simp [handleRequest, hval]) h

/-- Witness for C4: a provider call is dispatched on an authenticated
`/ask/open` request, and indeed its credentials verify. -/
theorem auth_gates_backends_witness :
    (handleRequest demoEnv demoUp askOpenReq).2 ≠ [] ∧
    authOk demoEnv askOpenReq.auth = true :=
  ⟨by decide, auth_gates_backends demoEnv demoUp askOpenReq (by decide)⟩

/-- C5: on each of the four routes that require the `prompt` query
parameter, an authenticated request without it gets exactly 400 and no
provider call is dispatched. -/
theorem missing_prompt_400 (env : Env) (up : Upstream) (req : Request)
    (hauth : authOk env req.auth = true)
    (hpath : req.path = "/ask/open" ∨ req.path = "/ask/cf" ∨
             req.path = "/explain/open" ∨ req.path = "/sound/open")
    (hq : req.query.prompt = none) :
    (handleRequest env up req).1.status = 400 ∧ (handleRequest env up req).2 = [] := by
  rcases hpath with h | h | h | h <;>
    simp [handleRequest, hauth, h, askOpenHandler, askCfHandler, explainOpenHandler,
          soundOpenHandler, hq, missingPromptResponse]

/-- An authenticated `/sound/open` request with no query parameters. -/
def noPromptReq : Request := { path := "/sound/open", auth := demoAuth, query := {} }

/-- Witness for C5 at a concrete promptless request. -/
theorem missing_prompt_400_witness :
    (handleRequest demoEnv demoUp noPromptReq).1.status = 400 ∧
    (handleRequest demoEnv demoUp noPromptReq).2 = [] :=
  missing_prompt_400 demoEnv demoUp noPromptReq (by decide)
    (Or.inr (Or.inr (Or.inr rfl))) rfl

/-- An oracle whose `/ask/cf` binding call returns zero sentence items. -/
def emptyCfUp : Upstream := { demoUp with askCf := .ok { sentences := [] } }

/-- An authenticated `/ask/cf` request with a prompt. -/
def askCfReq : Request :=
  { path := "/ask/cf", auth := demoAuth, query := { prompt := some "x" } }

/-- C6 counterexample: on `/ask/cf` an empty structured result (zero
sentence items) is returned as-is with status 200 — the handler calls
`c.json(resp)` with no emptiness check — not 500 as the claim states for
"either backend". -/
theorem ask_cf_empty_200_cex :
    (handleRequest demoEnv emptyCfUp askCfReq).1.status = 200 ∧
    (handleRequest demoEnv emptyCfUp askCfReq).1.status ≠ 500 ∧
    (handleRequest demoEnv emptyCfUp askCfReq).1.body = Body.jsonRaw { sentences := [] } := by
  refine ⟨rfl, by decide, rfl⟩

/-- C6 (amended): on `/ask/open` a backend call failure or an empty
structured result yields 500 with a generic message; on `/ask/cf` a backend
call failure yields 500 with a generic message, but a successful provider
response — even with zero sentence items — is passed through with 200. -/
theorem ask_backend_error_handling (env : Env) (up : Upstream) (req : Request) (p : String)
    (hauth : authOk env req.auth = true)
    (hp : req.query.prompt = some p) (hpne : p ≠ "") :
    (req.path = "/ask/open" → up.askOpen = .error () →
       (handleRequest env up req).1.status = 500 ∧
       (handleRequest env up req).1.body = .text "Internal Server Error") ∧
    (req.path = "/ask/open" → ∀ r, up.askOpen = .ok r → askOpenSuccess r = none →
       (handleRequest env up req).1.status = 500 ∧
       (handleRequest env up req).1.body = .text "Failed to generate sentences") ∧
    (req.path = "/ask/cf" → up.askCf = .error () →
       (handleRequest env up req).1.status = 500 ∧
       (handleRequest env up req).1.body = .text "Internal Server Error") ∧
    (req.path = "/ask/cf" → ∀ r, up.askCf = .ok r →
       (handleRequest env up req).1.status = 200 ∧
       (handleRequest env up req).1.body = .jsonRaw r) := by
  refine ⟨fun hpath herr => ?_, fun hpath r hok hfail => ?_,
          fun hpath herr => ?_, fun hpath r hok => ?_⟩ <;>
    simp_all [handleRequest, askOpenHandler, askCfHandler,
              internalErrorResponse]

/-- Witness for C6's amended theorem: a failing `/ask/open` backend call
yields 500 with the default generic message. -/
theorem ask_backend_error_handling_witness :
    (handleRequest demoEnv failUp askOpenReq).1.status = 500 ∧
    (handleRequest demoEnv failUp askOpenReq).1.body = .text "Internal Server Error" :=
  (ask_backend_error_handling demoEnv failUp askOpenReq "言葉"
    (by decide) rfl (by decide)).1 rfl rfl

theorem askOpenSuccess_of_head (r : OpenAiParseResp) (ch : ParsedChoice) (d : Dict)
    (hch : r.choices.head? = some ch) (hd : ch.parsed = some d)
    (hne : d.sentences ≠ []) :
    askOpenSuccess r = some d.sentences := by
  cases hc : r.choices with
  | nil => rw [hc] at hch; simp at hch
  | cons c cs =>
    rw [hc] at hch
    simp only [List.head?_cons, Option.some.injEq] at hch
    subst hch
    cases hs : d.sentences with
    | nil => exact absurd hs hne
    | cons s ss => simp [askOpenSuccess, hc, hd, hs]

/-- C7: an authenticated `/ask/open` request whose parsed backend response
has a first choice with a parsed payload of at least one sentence object
returns 200 with the JSON array of exactly those parsed sentence items
(each a `{jp, jp_reading, en}` record). -/
theorem ask_open_success_shape (env : Env) (up : Upstream) (req : Request) (p : String)
    (hauth : authOk env req.auth = true)
    (hpath : req.path = "/ask/open")
    (hp : req.query.prompt = some p) (hpne : p ≠ "")
    (r : OpenAiParseResp) (hup : up.askOpen = .ok r)
    (ch : ParsedChoice) (hch : r.choices.head? = some ch)
    (d : Dict) (hd : ch.parsed = some d) (hne : d.sentences ≠ []) :
    (handleRequest env up req).1.status = 200 ∧
    (handleRequest env up req).1.contentType = some "application/json" ∧
    (handleRequest env up req).1.body = .sentences d.sentences := by
  have hs := askOpenSuccess_of_head r ch d hch hd hne
  simp [handleRequest, hauth, hpath, askOpenHandler, hp, hpne, hup, hs]

/-- Witness for C7 at a concrete one-sentence parse result. -/
theorem ask_open_success_shape_witness :
    (handleRequest demoEnv demoUp askOpenReq).1.status = 200 ∧
    (handleRequest demoEnv demoUp askOpenReq).1.contentType = some "application/json" ∧
    (handleRequest demoEnv demoUp askOpenReq).1.body = .sentences [demoSentence] :=
  ask_open_success_shape demoEnv demoUp askOpenReq "言葉" (by decide) rfl rfl (by decide)
    { choices := [{ parsed := some { sentences := [demoSentence] } }] } rfl
    { parsed := some { sentences := [demoSentence] } } rfl
    { sentences := [demoSentence] } rfl (by decide)

/-- An authenticated `/sound/open` request that asks for a different model. -/
def soundModelReq : Request :=
  { path := "/sound/open", auth := demoAuth
    query := { prompt := some "hello", model := some "tts-1-hd" } }

/-- C9 counterexample: on a `/sound/open` request carrying
`model=tts-1-hd` the dispatched speech call still uses the hard-coded model
string `gpt-4o-mini-tts` — the handler never reads the `model` query
parameter — so the model identifier is not taken from the request. -/
theorem sound_model_ignored_cex :
    soundModelReq.query.model = some "tts-1-hd" ∧
    (handleRequest demoEnv demoUp soundModelReq).2 =
      [.openaiSpeech { model := "gpt-4o-mini-tts", voice := "nova", input := "hello"
                       instructions := SPEECH_INSTRUCTIONS }] ∧
    "gpt-4o-mini-tts" ≠ "tts-1-hd" := by
  refine ⟨rfl, rfl, by decide⟩

/-- C9 (amended): a successful authenticated `/sound/open` request
dispatches exactly one speech-synthesis call whose voice is taken from the
`voice` query parameter (default `nova`) but whose model is the fixed
string `gpt-4o-mini-tts` regardless of the `model` query parameter, and
returns the provider's audio bytes with `Content-Type: audio/mpeg` and
status 200. -/
theorem sound_open_contract (env : Env) (up : Upstream) (req : Request) (p : String)
    (hauth : authOk env req.auth = true)
    (hpath : req.path = "/sound/open")
    (hp : req.query.prompt = some p) (hpne : p ≠ "")
    (bytes : List Nat) (hb : up.speech = .ok bytes) :
    (handleRequest env up req).2 =
      [.openaiSpeech { model := "gpt-4o-mini-tts", voice := soundVoice req.query
                       input := p, instructions := SPEECH_INSTRUCTIONS }] ∧
    (handleRequest env up req).1.status = 200 ∧
    (handleRequest env up req).1.contentType = some "audio/mpeg" ∧
    (handleRequest env up req).1.body = .audio bytes := by
  simp [handleRequest, hauth, hpath, soundOpenHandler, hp, hpne, hb]

/-- Witness for C9's amended theorem at a concrete request. -/
theorem sound_open_contract_witness :
    (handleRequest demoEnv demoUp soundModelReq).2 =
      [.openaiSpeech { model := "gpt-4o-mini-tts", voice := soundVoice soundModelReq.query
                       input := "hello", instructions := SPEECH_INSTRUCTIONS }] ∧
    (handleRequest demoEnv demoUp soundModelReq).1.status = 200 ∧
    (handleRequest demoEnv demoUp soundModelReq).1.contentType = some "audio/mpeg" ∧
    (handleRequest demoEnv demoUp soundModelReq).1.body = .audio [7, 8, 9] :=
  sound_open_contract demoEnv demoUp soundModelReq "hello" (by decide) rfl rfl
    (by decide) [7, 8, 9] rfl

end Aiwork
